import Mathlib

/-!
Verification of the conversational reference-session frontend
(nzcbass/referencecheck-frontend) against its specification.

The client components are embedded as pure transition functions translated
from the TypeScript sources:
  - ConversationalChat        (src/unnamed/part_000)
  - RefereeConversation       (src/frontend-example/src/RefereeConversation.tsx)
  - ConversationalReview      (src/frontend-example/src/ConversationalReview.tsx)
  - EditResponseModal         (src/frontend-example/src/EditResponseModal.tsx)
React state updates are modelled as immediate updates of a state record;
scheduled timeouts are modelled by their settled effect.  The backend engine
(the conversation API) is not part of this repository, so the definitions that
stand for it are modelled from the spec and say so in their doc comments.
-/

set_option autoImplicit false

namespace RefCheck

/-- The trim operation of the JavaScript sources (String.prototype.trim):
strips leading and trailing whitespace.  Defined directly on the character
list so that it evaluates inside the kernel; the library String.trim is
extensionally the same on the inputs that occur here. -/
def jsTrim (s : String) : String :=
  ⟨((s.data.dropWhile Char.isWhitespace).reverse.dropWhile Char.isWhitespace).reverse⟩

/-- Progress triple as returned by the conversation API and stored by
ConversationalChat (src/unnamed/part_000, line 49). -/
structure Progress where
  answered : Nat
  total : Nat
  percent : Nat
deriving DecidableEq

/-- Question payload of the conversation API (src/unnamed/part_000, lines 21-27). -/
structure Question where
  index : Nat
  key : String
  text : String
  type : String
  required : Bool
deriving DecidableEq

/-- Chat message role (src/unnamed/part_000, line 16). -/
inductive Role where
  | assistant
  | user
deriving DecidableEq

/-- Chat message (src/unnamed/part_000, lines 15-19; the timestamp is real time
and is not modelled). -/
structure Message where
  role : Role
  content : String
deriving DecidableEq

/-- The React state of ConversationalChat (src/unnamed/part_000, lines 42-50). -/
structure ChatState where
  sessionId : Option String
  messages : List Message
  currentQuestion : Option Question
  answer : String
  loading : Bool
  submitting : Bool
  error : String
  progress : Progress
  status : String
deriving DecidableEq

/-- The initial state of ConversationalChat at mount (src/unnamed/part_000,
lines 42-50, useState defaults). -/
def initialChatState : ChatState :=
  { sessionId := none
    messages := []
    currentQuestion := none
    answer := ""
    loading := true
    submitting := false
    error := ""
    progress := { answered := 0, total := 0, percent := 0 }
    status := "in_progress" }

/-- Body of a successful response to GET /conversation/init
(src/unnamed/part_000, lines 91-141). -/
structure InitResponse where
  session_id : String
  status : String
  progress : Progress
  question : Option Question
  candidate_name : String
  position : String
deriving DecidableEq

/-- Appends a chat message (addMessage, src/unnamed/part_000, lines 155-169). -/
def addMessage (s : ChatState) (role : Role) (content : String) : ChatState :=
  { s with messages := s.messages ++ [{ role := role, content := content }] }

/-- Message shown when init finds the session already completed
(src/unnamed/part_000, line 113). -/
def completedText : String :=
  "Thank you! Your reference check has already been completed."

/-- Message shown when all questions are answered (src/unnamed/part_000,
lines 118 and 221-224). -/
def readyText : String :=
  "✅ Great! You\x27ve answered all the questions. Please review your answers before submitting."

/-- Welcome message built from the init context (src/unnamed/part_000,
lines 127-133). -/
def welcomeText (candidateName position : String) : String :=
  (if candidateName == "" then "Thank you for providing a reference."
   else "Thank you for providing a reference for " ++ candidateName ++ ".")
  ++ (if position == "" then ""
      else " They have applied for the position of " ++ position ++ ".")
  ++ " I\x27ll ask you a series of questions about your experience working together. Please answer naturally and honestly."

/-- Processing of a successful init response (src/unnamed/part_000, lines
99-144), in the settled state after the scheduled 300ms timeout has fired and
with setLoading(false) from the finally block applied.  The returned Bool
records whether the transition to the review step (the onComplete callback,
lines 120-122) was scheduled. -/
def initStep (s : ChatState) (d : InitResponse) : ChatState × Bool :=
  let s1 := { s with sessionId := some d.session_id, status := d.status,
                     progress := d.progress, loading := false, error := "" }
  if d.status == "completed" then
    ({ addMessage s1 .assistant completedText with status := "completed" }, false)
  else if d.status == "in_review" || d.status == "ready_for_review" then
    ({ addMessage s1 .assistant readyText with status := "ready_for_review" }, true)
  else
    match d.question with
    | some q =>
        let s2 := addMessage s1 .assistant (welcomeText d.candidate_name d.position)
        ({ addMessage s2 .assistant q.text with currentQuestion := some q }, false)
    | none => (s1, false)

/-- Body of the POST /conversation/answer request (src/unnamed/part_000,
lines 192-197). -/
structure AnswerRequest where
  session_id : String
  question_index : Nat
  answer : String
  skip_proofreading : Bool
deriving DecidableEq

/-- Guard and synchronous prefix of handleSubmitAnswer (src/unnamed/part_000,
lines 171-198): returns none when the guard at line 174 fires (no request is
issued and the state is untouched); otherwise returns the state as updated
before the fetch (submitting set, error cleared, the trimmed answer echoed
into the chat, the input cleared) together with the request body. -/
def beginSubmit (s : ChatState) : Option (ChatState × AnswerRequest) :=
  match s.sessionId, s.currentQuestion with
  | some sid, some q =>
      if jsTrim s.answer == "" then none
      else
        let userAnswer := jsTrim s.answer
        some
          ({ addMessage { s with submitting := true, error := "" } .user userAnswer
              with answer := "" },
           { session_id := sid, question_index := q.index, answer := userAnswer,
             skip_proofreading := true })
  | _, _ => none

/-- Body of a successful response to POST /conversation/answer
(src/unnamed/part_000, lines 200-231). -/
structure AnswerData where
  progress : Progress
  status : String
  message : Option String
  same_question : Option Question
  next_question : Option Question
deriving DecidableEq

/-- Processing of a successful (response.ok) submit response
(src/unnamed/part_000, lines 206-233). -/
def handleAnswerOk (s : ChatState) (d : AnswerData) : ChatState :=
  let s1 := { s with progress := d.progress, status := d.status }
  let s2 :=
    if d.status == "needs_clarification" then
      let sa := match d.message with
                | some m => addMessage s1 .assistant m
                | none => s1
      match d.same_question with
      | some q => { sa with currentQuestion := some q }
      | none => sa
    else if d.status == "ready_for_review" then
      { addMessage s1 .assistant readyText with
          currentQuestion := none, status := "ready_for_review" }
    else
      match d.next_question with
      | some q => { addMessage s1 .assistant q.text with currentQuestion := some q }
      | none => s1
  { s2 with submitting := false }

/-- Processing of a failed submit, both a non-ok response and a network error
(src/unnamed/part_000, lines 202-203 and 234-240). -/
def handleAnswerErr (s : ChatState) (msg : String) : ChatState :=
  { addMessage { s with error := msg } .assistant
      ("Error: " ++ msg ++ ". Please try again.")
    with submitting := false }

/-- Whether the answer input form is rendered (src/unnamed/part_000, line 410;
while loading the component renders only the loading view, lines 257-265). -/
def renderAnswerForm (s : ChatState) : Bool :=
  !s.loading
    && (s.status == "in_progress" || s.status == "needs_clarification")
    && s.currentQuestion.isSome

/-- Whether the send button is enabled (src/unnamed/part_000, line 463) and the
textarea accepts input (line 441); both are disabled while submitting. -/
def sendEnabled (s : ChatState) : Bool :=
  !(jsTrim s.answer == "") && !s.submitting

/-- ConversationalChat together with the number of submit requests it has
issued that have not yet received a response. -/
structure ChatSys where
  st : ChatState
  inFlight : Nat
deriving DecidableEq

/-- Events ConversationalChat can receive after init: typing in the textarea,
submitting the form (send button or Ctrl+Enter on the textarea, lines 453-459
and 461-477; disabled controls fire no events), and the network delivering a
response to an issued request. -/
inductive ChatEvent where
  | typeAnswer (t : String)
  | sendClick
  | okResponse (d : AnswerData)
  | errResponse (msg : String)

/-- One step of the ConversationalChat event system; returns the new state and
the submit requests issued by the step. -/
def chatStep (c : ChatSys) (e : ChatEvent) : ChatSys × List AnswerRequest :=
  match e with
  | .typeAnswer t =>
      if renderAnswerForm c.st && !c.st.submitting then
        ({ c with st := { c.st with answer := t } }, [])
      else (c, [])
  | .sendClick =>
      if renderAnswerForm c.st && sendEnabled c.st then
        match beginSubmit c.st with
        | some (s2, req) => ({ st := s2, inFlight := c.inFlight + 1 }, [req])
        | none => (c, [])
      else (c, [])
  | .okResponse d =>
      if c.inFlight > 0 then
        ({ st := handleAnswerOk c.st d, inFlight := c.inFlight - 1 }, [])
      else (c, [])
  | .errResponse msg =>
      if c.inFlight > 0 then
        ({ st := handleAnswerErr c.st msg, inFlight := c.inFlight - 1 }, [])
      else (c, [])

/-- Runs a trace of events through chatStep, collecting all issued requests. -/
def chatRun (c : ChatSys) : List ChatEvent → ChatSys × List AnswerRequest
  | [] => (c, [])
  | e :: es =>
      let p := chatStep c e
      let r := chatRun p.fst es
      (r.fst, p.snd ++ r.snd)

/-! ### RefereeConversation (src/frontend-example/src/RefereeConversation.tsx) -/

/-- Kinds of state-mutating requests the client can issue against a session. -/
inductive MutKind where
  | submitAnswerReq
  | reviseReq
  | completeReq
deriving DecidableEq

/-- The React state of RefereeConversation relevant to progress tracking and
submission (RefereeConversation.tsx, lines 16-25).  progressCurrent and
progressTotal are the fields of the progress object (line 24). -/
structure RCState where
  currentInput : String
  currentQuestionId : Option String
  isSubmitting : Bool
  isComplete : Bool
  progressCurrent : Nat
  progressTotal : Nat
deriving DecidableEq

/-- Guard of handleSendMessage (RefereeConversation.tsx, line 125): the send is
dropped unless the trimmed input is non-empty, a current question exists, and
no submission is in flight. -/
def rcSendGuard (s : RCState) : Bool :=
  !(jsTrim s.currentInput == "") && s.currentQuestionId.isSome && !s.isSubmitting

/-- Events RefereeConversation can receive: typing, the send action (button or
Enter, lines 229-234 and 348-360; the textarea is disabled while submitting and
the input area is unrendered once complete, lines 336-346), and network
responses to the draft save and the final submit. -/
inductive RCEvent where
  | typeInput (t : String)
  | sendClick
  | draftOkNext (qid : String)
  | draftOkLast
  | draftErr
  | submitOk
  | submitErr

/-- One step of the RefereeConversation event system (handleSendMessage,
RefereeConversation.tsx, lines 124-227); returns the new state and the
state-mutating requests issued by the step.  On a successful draft save the
client increments its local progress counter by one (line 160); when no next
question is returned it issues the final submit (lines 176-221). -/
def rcStep (s : RCState) (e : RCEvent) : RCState × List MutKind :=
  match e with
  | .typeInput t =>
      if !s.isComplete && !s.isSubmitting then ({ s with currentInput := t }, [])
      else (s, [])
  | .sendClick =>
      if !s.isComplete && rcSendGuard s then
        ({ s with currentInput := "", isSubmitting := true }, [.submitAnswerReq])
      else (s, [])
  | .draftOkNext qid =>
      if s.isSubmitting then
        ({ s with progressCurrent := s.progressCurrent + 1,
                  currentQuestionId := some qid, isSubmitting := false }, [])
      else (s, [])
  | .draftOkLast =>
      if s.isSubmitting then
        ({ s with progressCurrent := s.progressCurrent + 1 }, [.completeReq])
      else (s, [])
  | .draftErr =>
      if s.isSubmitting then ({ s with isSubmitting := false }, [])
      else (s, [])
  | .submitOk =>
      if s.isSubmitting then
        ({ s with isComplete := true, isSubmitting := false }, [])
      else (s, [])
  | .submitErr =>
      if s.isSubmitting then ({ s with isSubmitting := false }, [])
      else (s, [])

/-- Runs a trace of events through rcStep, collecting all issued requests. -/
def rcRun (s : RCState) : List RCEvent → RCState × List MutKind
  | [] => (s, [])
  | e :: es =>
      let p := rcStep s e
      let r := rcRun p.fst es
      (r.fst, p.snd ++ r.snd)

/-! ### ConversationalReview (src/frontend-example/src/ConversationalReview.tsx) -/

/-- Conversation turn as displayed by the review page
(ConversationalReview.tsx, lines 15-19). -/
structure ReviewTurn where
  type : String
  content : String
  created_at : String
deriving DecidableEq

/-- Review item for one answered question (ConversationalReview.tsx,
lines 21-32). -/
structure ReviewItem where
  answer_id : String
  question_index : Nat
  question_key : String
  question_text : String
  answer_type : String
  raw_answer : String
  polished_answer : String
  word_count : Nat
  answered_at : String
  conversation_turns : List ReviewTurn
deriving DecidableEq

/-- Body of the POST /conversation/revise request (ConversationalReview.tsx,
lines 104-114). -/
structure ReviseRequest where
  answer_id : String
  new_answer : String
  revision_reason : String
deriving DecidableEq

/-- Request body built by handleSaveEdit (ConversationalReview.tsx, lines
97-114): none when the empty-answer guard at line 98 fires, otherwise the
payload with the trimmed answer and the default reason for an empty reason
field (JavaScript || on the empty string). -/
def saveEditRequest (answerId editValue editReason : String) : Option ReviseRequest :=
  if jsTrim editValue == "" then none
  else some
    { answer_id := answerId
      new_answer := jsTrim editValue
      revision_reason := if editReason == "" then "User revision during review" else editReason }

/-- Local state update applied by handleSaveEdit on a successful revise
(ConversationalReview.tsx, lines 122-129): only the item with the matching
answer_id has its polished_answer replaced. -/
def applyRevision (items : List ReviewItem) (answerId newPolished : String) :
    List ReviewItem :=
  items.map fun item =>
    if item.answer_id == answerId then { item with polished_answer := newPolished }
    else item

/-- The React state of ConversationalReview relevant to editing and submission
(ConversationalReview.tsx, lines 47-56), together with the state-mutating
requests issued and not yet answered. -/
structure RevState where
  items : List ReviewItem
  submitting : Bool
  editingId : Option String
  editValue : String
  editReason : String
  inFlight : List MutKind
deriving DecidableEq

/-- Events ConversationalReview can receive.  The edit button (line 455) and
the save button (line 326) carry no disabled attribute, so they can fire
whenever their mode is rendered; the complete button is disabled while
submitting or while an edit is open (line 548). -/
inductive RevEvent where
  | startEdit (i : Nat)
  | typeEdit (v : String)
  | cancelEdit
  | saveEditClick
  | reviseOk
  | reviseErr
  | completeClick
  | completeDone

/-- One step of the ConversationalReview event system (handleStartEdit lines
85-89, handleCancelEdit lines 91-95, handleSaveEdit lines 97-138, handleSubmit
lines 140-177, render guards lines 291, 326, 455, 546-559). -/
def revStep (s : RevState) (e : RevEvent) : RevState :=
  match e with
  | .startEdit i =>
      match s.items[i]? with
      | some it =>
          { s with editingId := some it.answer_id,
                   editValue := it.polished_answer, editReason := "" }
      | none => s
  | .typeEdit v =>
      if s.editingId.isSome then { s with editValue := v } else s
  | .cancelEdit =>
      { s with editingId := none, editValue := "", editReason := "" }
  | .saveEditClick =>
      match s.editingId with
      | some aid =>
          match saveEditRequest aid s.editValue s.editReason with
          | some _ => { s with inFlight := s.inFlight ++ [.reviseReq] }
          | none => s
      | none => s
  | .reviseOk =>
      if s.inFlight.contains .reviseReq then
        { s with
            items := applyRevision s.items (s.editingId.getD "") (jsTrim s.editValue)
            editingId := none, editValue := "", editReason := ""
            inFlight := s.inFlight.erase .reviseReq }
      else s
  | .reviseErr =>
      if s.inFlight.contains .reviseReq then
        { s with inFlight := s.inFlight.erase .reviseReq }
      else s
  | .completeClick =>
      if !s.submitting && s.editingId.isNone then
        { s with submitting := true, inFlight := s.inFlight ++ [.completeReq] }
      else s
  | .completeDone =>
      if s.inFlight.contains .completeReq then
        { s with submitting := false, inFlight := s.inFlight.erase .completeReq }
      else s

/-- Runs a trace of events through revStep. -/
def revRun (s : RevState) : List RevEvent → RevState
  | [] => s
  | e :: es => revRun (revStep s e) es

/-! ### EditResponseModal (src/frontend-example/src/EditResponseModal.tsx) -/

/-- Question shape used by EditResponseModal (EditResponseModal.tsx,
lines 8-13). -/
structure EditQuestion where
  id : String
  text : String
  required : Bool
deriving DecidableEq

/-- Truthiness of !editedAnswers[q.id]?.trim() (EditResponseModal.tsx,
line 112): the answer is missing, or it is empty after trimming. -/
def answerBlank (answers : List (String × String)) (qid : String) : Bool :=
  match answers.lookup qid with
  | none => true
  | some a => jsTrim a == ""

/-- The required questions left unanswered (EditResponseModal.tsx,
lines 111-113). -/
def missingRequired (questions : List EditQuestion)
    (answers : List (String × String)) : List EditQuestion :=
  questions.filter fun q => q.required && answerBlank answers q.id

/-- Body of the POST /responses/:id/versions request (EditResponseModal.tsx,
lines 125-129). -/
structure VersionRequest where
  user_id : String
  answers_json : List (String × String)
  edit_notes : String
deriving DecidableEq

/-- Outcome of handleSave before any network activity: either the validation
error shown to the user, or the version-creation request issued. -/
inductive SaveOutcome where
  | validationError (msg : String)
  | requestIssued (req : VersionRequest)
deriving DecidableEq

/-- Validation and request construction of handleSave (EditResponseModal.tsx,
lines 105-130): if any required question is blank after trimming, no request is
issued and the error names the missing questions; otherwise the request carries
the edited answers, the user id, and the trimmed edit notes. -/
def handleSave (questions : List EditQuestion) (editedAnswers : List (String × String))
    (userId editNotes : String) : SaveOutcome :=
  let missing := missingRequired questions editedAnswers
  if missing.length > 0 then
    .validationError
      ("Please answer all required questions: "
        ++ String.intercalate ", " (missing.map fun q => q.text))
  else
    .requestIssued
      { user_id := userId, answers_json := editedAnswers, edit_notes := jsTrim editNotes }

/-! ### Engine model

The backend engine behind the conversation API is not part of this repository
(only the frontend is under src), so the definitions below are modelled from
the spec and marked as such. -/

/-- Modelled from the spec: one Turn Log entry (spec section 3,
ConversationTurn); the engine is not part of this repository. -/
structure Turn where
  questionKey : String
  kind : String
  content : String
deriving DecidableEq

/-- Modelled from the spec: the per-session engine state (spec sections 3 and
4) — template, append-only Version Store rows per question key (contents of
versions 1..n in order), append-only Turn Log, question pointer, state and
seal flag; the engine is not part of this repository. -/
structure EngineSession where
  template : List Question
  versions : List (String × List String)
  turnLog : List Turn
  pointer : Nat
  state : String
  hasSeal : Bool
deriving DecidableEq

/-- Modelled from the spec: the versions recorded for a question key, oldest
first (spec section 4.4). -/
def currentVersions (s : EngineSession) (key : String) : List String :=
  (s.versions.lookup key).getD []

/-- Modelled from the spec: whether a question has a current Answer version. -/
def hasAnswer (s : EngineSession) (q : Question) : Bool :=
  !(currentVersions s q.key).isEmpty

/-- Modelled from the spec: the count of questions with a current Answer
version (spec section 8, first testable property). -/
def answeredCount (s : EngineSession) : Nat :=
  (s.template.filter fun q => hasAnswer s q).length

/-- Modelled from the spec: the progress triple reported by the engine
(spec section 6, init and submit_answer outputs). -/
def engineProgress (s : EngineSession) : Progress :=
  { answered := answeredCount s
    total := s.template.length
    percent := if s.template.length = 0 then 0
               else answeredCount s * 100 / s.template.length }

/-- Modelled from the spec: appending one version for a question key to the
Version Store (create_version, spec section 4.4); never updates an existing
row. -/
def insertVersion (vs : List (String × List String)) (key content : String) :
    List (String × List String) :=
  if (vs.lookup key).isSome then
    vs.map fun p => if p.fst == key then (p.fst, p.snd ++ [content]) else p
  else vs ++ [(key, [content])]

/-- Modelled from the spec: the Question Sequencer (spec section 4.2) — the
first question in template order lacking a current Answer version, with its
index. -/
def nextUnanswered (s : EngineSession) : Option (Nat × Question) :=
  s.template.enum.find? fun p => !(hasAnswer s p.snd)

/-- Modelled from the spec: the clarification message synthesized by the
Answer Validator on a validation failure (spec section 4.3). -/
def clarificationText : String :=
  "Could you share a bit more detail? The answer cannot be empty."

/-- Outcome of submit_answer as seen by the caller (spec sections 4.1 and 6). -/
inductive SubmitOutcome where
  | accepted (next : Option Question)
  | clarification (same : Question) (msg : String)
  | indexMismatch
  | alreadyCompleted
deriving DecidableEq

/-- Modelled from the spec: submit_answer of the Session Manager (spec section
4.1), with the Answer Validator check for non-empty trimmed content (section
4.3), the idempotent absorption of a retried duplicate by question key
(sections 4.1 and 5: exactly one Version and one Turn Log entry, never two),
and the sequencer advance (section 4.2); the engine is not part of this
repository. -/
def submitAnswerM (s : EngineSession) (idx : Nat) (ans : String) :
    EngineSession × SubmitOutcome :=
  if s.state == "completed" then (s, .alreadyCompleted)
  else
    match s.template[idx]? with
    | none => (s, .indexMismatch)
    | some q =>
      if hasAnswer s q then
        (s, .accepted ((nextUnanswered s).map Prod.snd))
      else if !(idx == s.pointer) then (s, .indexMismatch)
      else if jsTrim ans == "" then
        ({ s with
            state := "needs_clarification"
            turnLog := s.turnLog ++
              [{ questionKey := q.key, kind := "clarification_requested",
                 content := clarificationText }] },
         .clarification q clarificationText)
      else
        let s1 := { s with
          versions := insertVersion s.versions q.key ans
          turnLog := s.turnLog ++
            [{ questionKey := q.key, kind := "user_answer", content := ans }] }
        match nextUnanswered s1 with
        | some (i, nq) =>
            ({ s1 with pointer := i, state := "in_progress" }, .accepted (some nq))
        | none => ({ s1 with state := "ready_for_review" }, .accepted none)

/-- Modelled from the spec: revise (spec section 4.1) on top of create_version
(section 4.4) — permitted only while the session state is not completed;
appends one new version for the answer and does not touch the Turn Log;
returns the new version number.  The engine is not part of this repository. -/
def engineRevise (s : EngineSession) (key newAnswer : String) :
    EngineSession × Option Nat :=
  if s.state == "completed" then (s, none)
  else
    ({ s with versions := insertVersion s.versions key newAnswer },
     some ((currentVersions s key).length + 1))

/-- Modelled from the spec: one stored response version behind the
/responses/:id/versions store used by EditResponseModal (spec sections 3 and
4.4); the backend is not part of this repository. -/
structure ResponseVersion where
  version : Nat
  is_original : Bool
  answers_json : List (String × String)
  edited_by : Option String
  edit_notes : Option String
deriving DecidableEq

/-- Modelled from the spec: version numbers are max(existing) + 1, or 1 when
none exist (create_version, spec section 4.4). -/
def nextVersionNumber (vs : List ResponseVersion) : Nat :=
  (vs.map fun v => v.version).foldr Nat.max 0 + 1

/-- Modelled from the spec: create_version always appends exactly one new row
and version 1 is the one flagged is_original (spec sections 3 and 4.4); the
backend is not part of this repository. -/
def createVersion (vs : List ResponseVersion) (req : VersionRequest) :
    List ResponseVersion :=
  vs ++ [{ version := nextVersionNumber vs
           is_original := nextVersionNumber vs = 1
           answers_json := req.answers_json
           edited_by := some req.user_id
           edit_notes := some req.edit_notes }]

/-- Modelled from the spec: whether every required question has a current
Answer version (spec sections 4.1 and 4.2). -/
def allRequiredAnswered (s : EngineSession) : Bool :=
  (s.template.filter fun q => q.required).all fun q => hasAnswer s q

/-- Modelled from the spec: the init transition (spec section 4.1) — if
sealed, completed; if all required questions already answered,
ready_for_review; otherwise in_progress with the active question from the
sequencer.  The engine is not part of this repository; the context fields are
left empty. -/
def initM (s : EngineSession) (sid : String) : InitResponse :=
  if s.hasSeal then
    { session_id := sid, status := "completed", progress := engineProgress s,
      question := none, candidate_name := "", position := "" }
  else if allRequiredAnswered s then
    { session_id := sid, status := "ready_for_review", progress := engineProgress s,
      question := none, candidate_name := "", position := "" }
  else
    { session_id := sid, status := "in_progress", progress := engineProgress s,
      question := (nextUnanswered s).map Prod.snd, candidate_name := "", position := "" }

/-! ### Invariants -/

/-- Invariant of the ConversationalChat event system: at most one submit
request is in flight, a request in flight implies the submitting flag, and a
completed status implies nothing is in flight. -/
def ChatInv (c : ChatSys) : Prop :=
  c.inFlight ≤ 1
    ∧ (c.inFlight = 1 → c.st.submitting = true)
    ∧ (c.st.status = "completed" → c.inFlight = 0)

/-! ### Concrete fixtures used by witnesses and counterexamples -/

/-- First sample template question. -/
def qA : Question :=
  { index := 0, key := "q1", text := "How long have you worked together?",
    type := "long_text", required := true }

/-- Second sample template question. -/
def qB : Question :=
  { index := 1, key := "q2", text := "Was the candidate reliable?",
    type := "long_text", required := true }

/-- A fresh engine session over the two-question template. -/
def engineFresh : EngineSession :=
  { template := [qA, qB], versions := []
    turnLog := [{ questionKey := "q1", kind := "question_posed", content := qA.text }]
    pointer := 0, state := "in_progress", hasSeal := false }

/-- An engine session in which the first question has been answered. -/
def engineOneAnswered : EngineSession :=
  { template := [qA, qB]
    versions := [("q1", ["Great teammate"])]
    turnLog := [{ questionKey := "q1", kind := "question_posed", content := qA.text },
                { questionKey := "q1", kind := "user_answer", content := "Great teammate" }]
    pointer := 1, state := "in_progress", hasSeal := false }

/-- A sealed, completed engine session over the two-question template. -/
def engineDone : EngineSession :=
  { template := [qA, qB]
    versions := [("q1", ["Great teammate"]), ("q2", ["Always on time"])]
    turnLog := [{ questionKey := "q1", kind := "question_posed", content := qA.text },
                { questionKey := "q1", kind := "user_answer", content := "Great teammate" },
                { questionKey := "q2", kind := "question_posed", content := qB.text },
                { questionKey := "q2", kind := "user_answer", content := "Always on time" }]
    pointer := 2, state := "completed", hasSeal := true }

/-- A ConversationalChat state in the middle of a session, on question qA. -/
def chatMid : ChatState :=
  { sessionId := some "s1"
    messages := [{ role := .assistant, content := qA.text }]
    currentQuestion := some qA
    answer := "Great teammate"
    loading := false, submitting := false, error := ""
    progress := { answered := 0, total := 2, percent := 0 }
    status := "in_progress" }

/-- A ConversationalChat state on a completed session. -/
def chatDone : ChatState :=
  { sessionId := some "s1"
    messages := [{ role := .assistant, content := completedText }]
    currentQuestion := none
    answer := ""
    loading := false, submitting := false, error := ""
    progress := { answered := 2, total := 2, percent := 100 }
    status := "completed" }

/-- A RefereeConversation state mid-session with one of two questions already
counted and the draft save for the retry in flight. -/
def rcMid : RCState :=
  { currentInput := "", currentQuestionId := some "q2"
    isSubmitting := true, isComplete := false
    progressCurrent := 1, progressTotal := 2 }

/-- A RefereeConversation state after completion. -/
def rcDone : RCState :=
  { currentInput := "", currentQuestionId := some "q2"
    isSubmitting := false, isComplete := true
    progressCurrent := 2, progressTotal := 2 }

/-- A sample review turn for the first question. -/
def turnA : ReviewTurn :=
  { type := "user_answer", content := "grate teammate", created_at := "t1" }

/-- First sample review item. -/
def itemA : ReviewItem :=
  { answer_id := "a1", question_index := 0, question_key := "q1"
    question_text := qA.text, answer_type := "long_text"
    raw_answer := "grate teammate", polished_answer := "Great teammate"
    word_count := 2, answered_at := "t1", conversation_turns := [turnA] }

/-- Second sample review item. -/
def itemB : ReviewItem :=
  { answer_id := "a2", question_index := 1, question_key := "q2"
    question_text := qB.text, answer_type := "long_text"
    raw_answer := "Always on time", polished_answer := "Always on time"
    word_count := 3, answered_at := "t2", conversation_turns := [] }

/-- A freshly loaded ConversationalReview state over the two sample items. -/
def revLoaded : RevState :=
  { items := [itemA, itemB], submitting := false, editingId := none
    editValue := "", editReason := "", inFlight := [] }

/-- Event trace in which the save-edit button is clicked twice before any
response arrives. -/
def doubleSaveTrace : List RevEvent :=
  [.startEdit 0, .typeEdit "Updated text", .saveEditClick, .saveEditClick]

/-- Sample questions for EditResponseModal. -/
def editQs : List EditQuestion :=
  [{ id := "e1", text := "Strengths?", required := true },
   { id := "e2", text := "Weaknesses?", required := false }]

/-- An unsealed engine session with every question answered. -/
def engineAllAnswered : EngineSession :=
  { engineDone with state := "ready_for_review", hasSeal := false }

/-- The state beginSubmit produces from chatMid. -/
def chatMidSent : ChatState :=
  { chatMid with submitting := true, error := "", answer := ""
                 messages := chatMid.messages ++
                   [{ role := .user, content := "Great teammate" }] }

/-- The request beginSubmit produces from chatMid. -/
def chatMidReq : AnswerRequest :=
  { session_id := "s1", question_index := 0, answer := "Great teammate",
    skip_proofreading := true }

/-! ## Helper lemmas -/

/-- A successful beginSubmit fully determines the request and the new state. -/
theorem beginSubmit_some {s s2 : ChatState} {req : AnswerRequest}
    (h : beginSubmit s = some (s2, req)) :
    req.skip_proofreading = true ∧
    req.answer = jsTrim s.answer ∧
    (∃ sid q, s.sessionId = some sid ∧ s.currentQuestion = some q ∧
       req.session_id = sid ∧ req.question_index = q.index) ∧
    s2 = { s with submitting := true, error := "", answer := "",
                  messages := s.messages ++
                    [{ role := .user, content := jsTrim s.answer }] } := by
  unfold beginSubmit at h
  split at h
  case h_1 sid q hsid hq =>
    split at h
    · exact absurd h (by simp)
    · rw [Option.some.injEq, Prod.mk.injEq] at h
      obtain ⟨h1, h2⟩ := h
      subst h1; subst h2
      refine ⟨rfl, rfl, ⟨sid, q, hsid, hq, rfl, rfl⟩, ?_⟩
      simp [addMessage]
  case h_2 =>
    exact absurd h (by simp)

/-- The empty-input guard of handleSubmitAnswer: no request is built. -/
theorem beginSubmit_empty {s : ChatState} (h : jsTrim s.answer = "") :
    beginSubmit s = none := by
  unfold beginSubmit
  split
  · simp [h]
  · rfl

/-- With an empty trimmed input the send step leaves the system unchanged and
issues nothing. -/
theorem chatStep_send_empty (c : ChatSys) (h : jsTrim c.st.answer = "") :
    chatStep c .sendClick = (c, []) := by
  simp [chatStep, sendEnabled, h]

/-- A completed status renders no answer form. -/
theorem renderAnswerForm_completed {s : ChatState} (h : s.status = "completed") :
    renderAnswerForm s = false := by
  simp [renderAnswerForm, h]

/-- From a completed chat state with nothing in flight, every event is a
no-op and issues no request. -/
theorem chatStep_completed (c : ChatSys) (e : ChatEvent)
    (hs : c.st.status = "completed") (hf : c.inFlight = 0) :
    chatStep c e = (c, []) := by
  cases e with
  | typeAnswer t => simp [chatStep, renderAnswerForm_completed hs]
  | sendClick => simp [chatStep, renderAnswerForm_completed hs]
  | okResponse d => simp [chatStep, hf]
  | errResponse msg => simp [chatStep, hf]

/-- From a completed chat state with nothing in flight, no trace of events
changes the state or issues a request. -/
theorem chatRun_completed (c : ChatSys) (tr : List ChatEvent)
    (hs : c.st.status = "completed") (hf : c.inFlight = 0) :
    chatRun c tr = (c, []) := by
  induction tr with
  | nil => rfl
  | cons e es ih =>
      simp [chatRun, chatStep_completed c e hs hf, ih]

/-- If the answer form is rendered, the status is not completed. -/
theorem status_ne_completed_of_render {s : ChatState}
    (h : renderAnswerForm s = true) : s.status ≠ "completed" := by
  intro hc
  rw [renderAnswerForm_completed hc] at h
  exact absurd h (by simp)

/-- One step of the chat event system preserves ChatInv. -/
theorem chatStep_inv (c : ChatSys) (e : ChatEvent) (h : ChatInv c) :
    ChatInv (chatStep c e).fst := by
  obtain ⟨h1, h2, h3⟩ := h
  cases e with
  | typeAnswer t =>
      by_cases hcond : (renderAnswerForm c.st && !c.st.submitting) = true
      · simp only [chatStep, if_pos hcond]
        exact ⟨h1, h2, h3⟩
      · simp only [chatStep, if_neg hcond]
        exact ⟨h1, h2, h3⟩
  | sendClick =>
      by_cases hcond : (renderAnswerForm c.st && sendEnabled c.st) = true
      · simp only [chatStep, if_pos hcond]
        have hrender : renderAnswerForm c.st = true := by
          cases hr : renderAnswerForm c.st with
          | true => rfl
          | false => rw [hr] at hcond; exact absurd hcond (by simp)
        have hsub : c.st.submitting = false := by
          cases hsb : c.st.submitting with
          | false => rfl
          | true =>
              rw [sendEnabled, hsb] at hcond
              simp at hcond
        have hzero : c.inFlight = 0 := by
          rcases Nat.le_one_iff_eq_zero_or_eq_one.mp h1 with h0 | hone
          · exact h0
          · rw [h2 hone] at hsub; exact absurd hsub (by simp)
        rcases hbs : beginSubmit c.st with - | ⟨s2, req⟩
        · exact ⟨h1, h2, h3⟩
        · obtain ⟨-, -, -, hs2⟩ := beginSubmit_some hbs
          refine ⟨?_, fun _ => ?_, fun hcomp => ?_⟩
          · show c.inFlight + 1 ≤ 1
            omega
          · show s2.submitting = true
            rw [hs2]
          · rw [hs2] at hcomp
            exact absurd hcomp (status_ne_completed_of_render hrender)
      · simp only [chatStep, if_neg hcond]
        exact ⟨h1, h2, h3⟩
  | okResponse d =>
      by_cases hpos : c.inFlight > 0
      · simp only [chatStep, if_pos hpos]
        refine ⟨?_, fun hx => ?_, fun _ => ?_⟩
        · show c.inFlight - 1 ≤ 1
          omega
        · exact absurd hx (by show c.inFlight - 1 ≠ 1; omega)
        · show c.inFlight - 1 = 0
          omega
      · simp only [chatStep, if_neg hpos]
        exact ⟨h1, h2, h3⟩
  | errResponse msg =>
      by_cases hpos : c.inFlight > 0
      · simp only [chatStep, if_pos hpos]
        refine ⟨?_, fun hx => ?_, fun _ => ?_⟩
        · show c.inFlight - 1 ≤ 1
          omega
        · exact absurd hx (by show c.inFlight - 1 ≠ 1; omega)
        · show c.inFlight - 1 = 0
          omega
      · simp only [chatStep, if_neg hpos]
        exact ⟨h1, h2, h3⟩

/-- ChatInv is preserved along any trace of events. -/
theorem chatRun_inv (c : ChatSys) (tr : List ChatEvent) (h : ChatInv c) :
    ChatInv (chatRun c tr).fst := by
  induction tr generalizing c with
  | nil => exact h
  | cons e es ih =>
      simp only [chatRun]
      exact ih _ (chatStep_inv c e h)

/-- From a completed RefereeConversation state with no submission in flight,
every event is a no-op and issues no request. -/
theorem rcStep_completed (s : RCState) (e : RCEvent)
    (hc : s.isComplete = true) (hs : s.isSubmitting = false) :
    rcStep s e = (s, []) := by
  cases e <;> simp [rcStep, hc, hs]

/-- From a completed RefereeConversation state with no submission in flight,
no trace changes the state or issues a request. -/
theorem rcRun_completed (s : RCState) (tr : List RCEvent)
    (hc : s.isComplete = true) (hs : s.isSubmitting = false) :
    rcRun s tr = (s, []) := by
  induction tr with
  | nil => rfl
  | cons e es ih =>
      simp [rcRun, rcStep_completed s e hc hs, ih]

/-- One step of the RefereeConversation event system preserves the invariant
that a completed state has no submission in flight. -/
theorem rcStep_inv (s : RCState) (e : RCEvent)
    (h : s.isComplete = true → s.isSubmitting = false) :
    (rcStep s e).fst.isComplete = true → (rcStep s e).fst.isSubmitting = false := by
  cases e with
  | typeInput t =>
      by_cases hc : (!s.isComplete && !s.isSubmitting) = true
      · simp only [rcStep, if_pos hc]; exact h
      · simp only [rcStep, if_neg hc]; exact h
  | sendClick =>
      by_cases hc : (!s.isComplete && rcSendGuard s) = true
      · simp only [rcStep, if_pos hc]
        intro hx
        rw [hx] at hc
        exact absurd hc (by simp)
      · simp only [rcStep, if_neg hc]; exact h
  | draftOkNext qid =>
      by_cases hc : s.isSubmitting = true
      · simp only [rcStep, if_pos hc]; intro _; trivial
      · simp only [rcStep, if_neg hc]; exact h
  | draftOkLast =>
      by_cases hc : s.isSubmitting = true
      · simp only [rcStep, if_pos hc]
        intro hx
        rw [h hx] at hc
        exact absurd hc (by simp)
      · simp only [rcStep, if_neg hc]; exact h
  | draftErr =>
      by_cases hc : s.isSubmitting = true
      · simp only [rcStep, if_pos hc]; intro _; trivial
      · simp only [rcStep, if_neg hc]; exact h
  | submitOk =>
      by_cases hc : s.isSubmitting = true
      · simp only [rcStep, if_pos hc]; intro _; trivial
      · simp only [rcStep, if_neg hc]; exact h
  | submitErr =>
      by_cases hc : s.isSubmitting = true
      · simp only [rcStep, if_pos hc]; intro _; trivial
      · simp only [rcStep, if_neg hc]; exact h

/-- The engine refuses every submit on a completed session and leaves it
unchanged (spec-modelled). -/
theorem submitAnswerM_completed (es : EngineSession) (idx : Nat) (ans : String)
    (h : es.state = "completed") :
    submitAnswerM es idx ans = (es, .alreadyCompleted) := by
  simp [submitAnswerM, h]

/-- The engine refuses every revise on a completed session and leaves it
unchanged (spec-modelled). -/
theorem engineRevise_completed (es : EngineSession) (key na : String)
    (h : es.state = "completed") :
    engineRevise es key na = (es, none) := by
  simp [engineRevise, h]

/-- Submitting an empty trimmed answer for the current question moves the
engine to needs_clarification, appends exactly one clarification_requested
turn, creates no version and keeps the pointer, returning the same question
(spec-modelled). -/
theorem submitAnswerM_empty (es : EngineSession) (q : Question) (ans : String)
    (hstate : es.state ≠ "completed")
    (hq : es.template[es.pointer]? = some q)
    (hnew : hasAnswer es q = false)
    (hans : jsTrim ans = "") :
    submitAnswerM es es.pointer ans =
      ({ es with state := "needs_clarification",
                 turnLog := es.turnLog ++
                   [{ questionKey := q.key, kind := "clarification_requested",
                      content := clarificationText }] },
       .clarification q clarificationText) := by
  simp [submitAnswerM, hstate, hq, hnew, hans]

/-- The client adopts the progress of every init response. -/
theorem initStep_progress (s : ChatState) (d : InitResponse) :
    (initStep s d).fst.progress = d.progress := by
  unfold initStep
  split
  · rfl
  · split
    · rfl
    · split <;> rfl

/-- The client adopts the progress of every successful submit response. -/
theorem handleAnswerOk_progress (s : ChatState) (d : AnswerData) :
    (handleAnswerOk s d).progress = d.progress := by
  unfold handleAnswerOk
  split
  · split <;> split <;> rfl
  · split
    · rfl
    · split <;> rfl

/-- The engine model never changes the template during submit_answer. -/
theorem submitAnswerM_template (es : EngineSession) (idx : Nat) (ans : String) :
    (submitAnswerM es idx ans).fst.template = es.template := by
  unfold submitAnswerM
  split
  · rfl
  · split
    · rfl
    · split
      · rfl
      · split
        · rfl
        · split
          · rfl
          · simp only []
            split <;> rfl

/-! ## Claim theorems -/

/-- C2: A submit_answer attempt whose answer is empty after trimming is
guarded in the client: ConversationalChat issues no request and leaves
messages, current question, progress and status untouched, and
RefereeConversation drops the send; at the engine (modelled from the spec)
such a submission moves the session to needs_clarification, returns the same
question, creates no Version, keeps the pointer and appends exactly one
clarification_requested Turn Log entry. -/
theorem c2_empty_submit (s : ChatState) (n : Nat) (rc : RCState)
    (es : EngineSession) (q : Question) (ans : String)
    (hchat : jsTrim s.answer = "")
    (hrc : jsTrim rc.currentInput = "")
    (hstate : es.state ≠ "completed")
    (hq : es.template[es.pointer]? = some q)
    (hnew : hasAnswer es q = false)
    (hans : jsTrim ans = "") :
    beginSubmit s = none ∧
    chatStep ⟨s, n⟩ .sendClick = (⟨s, n⟩, []) ∧
    rcStep rc .sendClick = (rc, []) ∧
    submitAnswerM es es.pointer ans =
      ({ es with state := "needs_clarification",
                 turnLog := es.turnLog ++
                   [{ questionKey := q.key, kind := "clarification_requested",
                      content := clarificationText }] },
       .clarification q clarificationText) := by
  refine ⟨beginSubmit_empty hchat, chatStep_send_empty ⟨s, n⟩ hchat, ?_,
          submitAnswerM_empty es q ans hstate hq hnew hans⟩
  simp [rcStep, rcSendGuard, hrc]

/-- Witness for c2_empty_submit at concrete inputs. -/
theorem c2_empty_submit_witness :
    beginSubmit { chatMid with answer := "   " } = none ∧
    chatStep ⟨{ chatMid with answer := "   " }, 0⟩ .sendClick =
      (⟨{ chatMid with answer := "   " }, 0⟩, []) ∧
    rcStep { rcMid with isSubmitting := false } .sendClick =
      ({ rcMid with isSubmitting := false }, []) ∧
    submitAnswerM engineFresh engineFresh.pointer " " =
      ({ engineFresh with
           state := "needs_clarification",
           turnLog := engineFresh.turnLog ++
             [{ questionKey := qA.key, kind := "clarification_requested",
                content := clarificationText }] },
       .clarification qA clarificationText) :=
  c2_empty_submit { chatMid with answer := "   " } 0
    { rcMid with isSubmitting := false } engineFresh qA " "
    (by decide) (by decide) (by decide) (by decide) (by decide) (by decide)

/-- C3: On a needs_clarification submit response the client re-presents the
same question (the returned same_question becomes the current question),
appends the clarification message to the chat, never restores the input that
was cleared before the request, and the engine (modelled from the spec) has
discarded the in-flight answer: pointer and Version Store unchanged, the same
question re-issued. -/
theorem c3_clarification_reissues (s : ChatState) (d : AnswerData) (m : String)
    (q : Question) (es : EngineSession) (eq1 : Question) (ans : String)
    (hst : d.status = "needs_clarification")
    (hm : d.message = some m)
    (hq : d.same_question = some q)
    (hstate : es.state ≠ "completed")
    (hq2 : es.template[es.pointer]? = some eq1)
    (hnew : hasAnswer es eq1 = false)
    (hans : jsTrim ans = "") :
    handleAnswerOk s d =
      { s with progress := d.progress, status := "needs_clarification",
               messages := s.messages ++ [{ role := .assistant, content := m }],
               currentQuestion := some q, submitting := false } ∧
    (handleAnswerOk s d).answer = s.answer ∧
    (∀ s2 req, beginSubmit s = some (s2, req) → s2.answer = "") ∧
    ((submitAnswerM es es.pointer ans).fst.pointer = es.pointer ∧
     (submitAnswerM es es.pointer ans).fst.versions = es.versions ∧
     (submitAnswerM es es.pointer ans).snd = .clarification eq1 clarificationText) := by
  have hmain : handleAnswerOk s d =
      { s with progress := d.progress, status := "needs_clarification",
               messages := s.messages ++ [{ role := .assistant, content := m }],
               currentQuestion := some q, submitting := false } := by
    simp [handleAnswerOk, addMessage, hst, hm, hq]
  have heng := submitAnswerM_empty es eq1 ans hstate hq2 hnew hans
  refine ⟨hmain, by rw [hmain], fun s2 req hbs => ?_, by rw [heng], by rw [heng], by rw [heng]⟩
  obtain ⟨-, -, -, hs2⟩ := beginSubmit_some hbs
  rw [hs2]

/-- Witness for c3_clarification_reissues at concrete inputs. -/
theorem c3_clarification_reissues_witness :
    handleAnswerOk chatMidSent
        { progress := { answered := 0, total := 2, percent := 0 },
          status := "needs_clarification",
          message := some clarificationText,
          same_question := some qA, next_question := none } =
      { chatMidSent with
          progress := { answered := 0, total := 2, percent := 0 },
          status := "needs_clarification",
          messages := chatMidSent.messages ++
            [{ role := .assistant, content := clarificationText }],
          currentQuestion := some qA, submitting := false } ∧
    (handleAnswerOk chatMidSent
        { progress := { answered := 0, total := 2, percent := 0 },
          status := "needs_clarification",
          message := some clarificationText,
          same_question := some qA, next_question := none }).answer
      = chatMidSent.answer ∧
    (∀ s2 req, beginSubmit chatMidSent = some (s2, req) → s2.answer = "") ∧
    ((submitAnswerM engineFresh engineFresh.pointer "  ").fst.pointer
        = engineFresh.pointer ∧
     (submitAnswerM engineFresh engineFresh.pointer "  ").fst.versions
        = engineFresh.versions ∧
     (submitAnswerM engineFresh engineFresh.pointer "  ").snd
        = .clarification qA clarificationText) :=
  c3_clarification_reissues chatMidSent
    { progress := { answered := 0, total := 2, percent := 0 },
      status := "needs_clarification",
      message := some clarificationText,
      same_question := some qA, next_question := none }
    clarificationText qA engineFresh qA "  "
    (by decide) (by decide) (by decide) (by decide) (by decide) (by decide) (by decide)

/-- C9: Every submit request the chat builds carries skip_proofreading set to
true, and the answer sent is the trimmed input, identical to the text echoed
into the chat as the user message. -/
theorem c9_skip_proofreading_always (s s2 : ChatState) (req : AnswerRequest)
    (h : beginSubmit s = some (s2, req)) :
    req.skip_proofreading = true ∧
    req.answer = jsTrim s.answer ∧
    s2.messages = s.messages ++ [{ role := .user, content := req.answer }] := by
  obtain ⟨h1, h2, -, h4⟩ := beginSubmit_some h
  refine ⟨h1, h2, ?_⟩
  rw [h4, h2]

/-- Witness for c9_skip_proofreading_always at concrete inputs. -/
theorem c9_skip_proofreading_always_witness :
    chatMidReq.skip_proofreading = true ∧
    chatMidReq.answer = jsTrim chatMid.answer ∧
    chatMidSent.messages = chatMid.messages ++
      [{ role := .user, content := chatMidReq.answer }] :=
  c9_skip_proofreading_always chatMid chatMidSent chatMidReq (by decide)

/-- C5: init resolves to exactly one of three outcomes determined by the
loaded session (engine side modelled from the spec): if sealed, completed
with the terminal view and no question; if all required questions are already
answered, ready_for_review with the review transition scheduled and no
question; otherwise in_progress with the sequencer question posed as the
first question — and in every case the response progress is adopted as the
client progress. -/
theorem c5_init_outcomes (es : EngineSession) (sid : String) (i : Nat)
    (q : Question) :
    (initStep initialChatState (initM es sid)).fst.progress = engineProgress es ∧
    (es.hasSeal = true →
       (initStep initialChatState (initM es sid)).fst.status = "completed" ∧
       (initStep initialChatState (initM es sid)).fst.currentQuestion = none ∧
       (initStep initialChatState (initM es sid)).snd = false) ∧
    (es.hasSeal = false → allRequiredAnswered es = true →
       (initStep initialChatState (initM es sid)).fst.status = "ready_for_review" ∧
       (initStep initialChatState (initM es sid)).fst.currentQuestion = none ∧
       (initStep initialChatState (initM es sid)).snd = true) ∧
    (es.hasSeal = false → allRequiredAnswered es = false →
       nextUnanswered es = some (i, q) →
       (initStep initialChatState (initM es sid)).fst.status = "in_progress" ∧
       (initStep initialChatState (initM es sid)).fst.currentQuestion = some q ∧
       (initStep initialChatState (initM es sid)).fst.messages =
         [{ role := .assistant, content := welcomeText "" "" },
          { role := .assistant, content := q.text }] ∧
       (initStep initialChatState (initM es sid)).snd = false) := by
  have hprog : (initM es sid).progress = engineProgress es := by
    unfold initM
    split
    · rfl
    · split <;> rfl
  refine ⟨by rw [initStep_progress, hprog], fun hseal => ?_, fun hseal hall => ?_,
          fun hseal hall hnext => ?_⟩
  · have hd : initM es sid =
        { session_id := sid, status := "completed", progress := engineProgress es,
          question := none, candidate_name := "", position := "" } := by
      simp [initM, hseal]
    rw [hd]
    refine ⟨?_, ?_, ?_⟩ <;> simp [initStep, addMessage, initialChatState]
  · have hd : initM es sid =
        { session_id := sid, status := "ready_for_review",
          progress := engineProgress es, question := none,
          candidate_name := "", position := "" } := by
      simp [initM, hseal, hall]
    rw [hd]
    refine ⟨?_, ?_, ?_⟩ <;> simp [initStep, addMessage, initialChatState]
  · have hd : initM es sid =
        { session_id := sid, status := "in_progress",
          progress := engineProgress es, question := some q,
          candidate_name := "", position := "" } := by
      simp [initM, hseal, hall, hnext]
    rw [hd]
    refine ⟨?_, ?_, ?_, ?_⟩ <;> simp [initStep, addMessage, initialChatState]

/-- Witness for c5_init_outcomes: all three outcomes exercised on concrete
sessions. -/
theorem c5_init_outcomes_witness :
    ((initStep initialChatState (initM engineDone "s1")).fst.status = "completed" ∧
     (initStep initialChatState (initM engineDone "s1")).fst.currentQuestion = none ∧
     (initStep initialChatState (initM engineDone "s1")).snd = false) ∧
    ((initStep initialChatState (initM engineAllAnswered "s1")).fst.status
        = "ready_for_review" ∧
     (initStep initialChatState (initM engineAllAnswered "s1")).fst.currentQuestion
        = none ∧
     (initStep initialChatState (initM engineAllAnswered "s1")).snd = true) ∧
    ((initStep initialChatState (initM engineOneAnswered "s1")).fst.status
        = "in_progress" ∧
     (initStep initialChatState (initM engineOneAnswered "s1")).fst.currentQuestion
        = some qB ∧
     (initStep initialChatState (initM engineOneAnswered "s1")).fst.messages =
       [{ role := .assistant, content := welcomeText "" "" },
        { role := .assistant, content := qB.text }] ∧
     (initStep initialChatState (initM engineOneAnswered "s1")).snd = false) :=
  ⟨(c5_init_outcomes engineDone "s1" 0 qA).2.1 (by decide),
   (c5_init_outcomes engineAllAnswered "s1" 0 qA).2.2.1 (by decide) (by decide),
   (c5_init_outcomes engineOneAnswered "s1" 1 qB).2.2.2 (by decide) (by decide)
     (by decide)⟩

/-- C6: A successful revise changes only the targeted answer: the request
carries the trimmed new answer, the client update replaces exactly the
polished answer of the item with the matching answer_id — its conversation
turns, raw answer, question fields and timestamp are untouched, as is every
other review item — and the engine revise (modelled from the spec) appends a
version without altering the Turn Log. -/
theorem c6_revise_frame (items : List ReviewItem) (aid ev er : String)
    (req : ReviseRequest) (es : EngineSession) (key na : String)
    (hreq : saveEditRequest aid ev er = some req)
    (hes : es.state ≠ "completed") :
    req.answer_id = aid ∧
    req.new_answer = jsTrim ev ∧
    (applyRevision items aid (jsTrim ev)).length = items.length ∧
    (∀ (i : Nat) (it : ReviewItem), items[i]? = some it →
       (¬(it.answer_id = aid) → (applyRevision items aid (jsTrim ev))[i]? = some it) ∧
       (it.answer_id = aid →
         (applyRevision items aid (jsTrim ev))[i]? =
           some { it with polished_answer := jsTrim ev })) ∧
    (engineRevise es key na).fst.turnLog = es.turnLog ∧
    (engineRevise es key na).snd = some ((currentVersions es key).length + 1) := by
  have hr : req = { answer_id := aid, new_answer := jsTrim ev,
                    revision_reason :=
                      if er == "" then "User revision during review" else er } := by
    unfold saveEditRequest at hreq
    split at hreq
    · exact absurd hreq (by simp)
    · rw [Option.some.injEq] at hreq
      exact hreq.symm
  refine ⟨by rw [hr], by rw [hr], by simp [applyRevision],
          fun i it hit => ⟨fun hne => ?_, fun heq => ?_⟩,
          by simp [engineRevise, hes], by simp [engineRevise, hes]⟩
  · simp [applyRevision, List.getElem?_map, hit, hne]
  · simp [applyRevision, List.getElem?_map, hit, heq]

/-- Witness for c6_revise_frame at concrete inputs. -/
theorem c6_revise_frame_witness :
    ({ answer_id := "a1", new_answer := "Better answer",
       revision_reason := "User revision during review" } : ReviseRequest).answer_id
      = "a1" ∧
    ({ answer_id := "a1", new_answer := "Better answer",
       revision_reason := "User revision during review" } : ReviseRequest).new_answer
      = jsTrim " Better answer " ∧
    (applyRevision [itemA, itemB] "a1" (jsTrim " Better answer ")).length
      = [itemA, itemB].length ∧
    (∀ (i : Nat) (it : ReviewItem), [itemA, itemB][i]? = some it →
       (¬(it.answer_id = "a1") →
          (applyRevision [itemA, itemB] "a1" (jsTrim " Better answer "))[i]? = some it) ∧
       (it.answer_id = "a1" →
          (applyRevision [itemA, itemB] "a1" (jsTrim " Better answer "))[i]? =
            some { it with polished_answer := jsTrim " Better answer " })) ∧
    (engineRevise engineOneAnswered "q1" "Better answer").fst.turnLog
      = engineOneAnswered.turnLog ∧
    (engineRevise engineOneAnswered "q1" "Better answer").snd
      = some ((currentVersions engineOneAnswered "q1").length + 1) :=
  c6_revise_frame [itemA, itemB] "a1" " Better answer " ""
    { answer_id := "a1", new_answer := "Better answer",
      revision_reason := "User revision during review" }
    engineOneAnswered "q1" "Better answer" (by decide) (by decide)

/-- C7: A new response version is created only when every required question
has a non-blank trimmed answer: otherwise handleSave issues no request and
reports an error naming exactly the missing required questions, leaving the
store untouched; with all required answers present it issues one request and
the store (modelled from the spec) appends exactly one version carrying the
edited answers, the editor id and the trimmed notes. -/
theorem c7_save_validation (qs : List EditQuestion)
    (answers : List (String × String)) (uid notes : String)
    (vs : List ResponseVersion) :
    (missingRequired qs answers ≠ [] →
       handleSave qs answers uid notes =
         .validationError
           ("Please answer all required questions: "
             ++ String.intercalate ", " ((missingRequired qs answers).map fun q => q.text))) ∧
    (missingRequired qs answers = [] →
       handleSave qs answers uid notes =
         .requestIssued { user_id := uid, answers_json := answers,
                          edit_notes := jsTrim notes } ∧
       createVersion vs { user_id := uid, answers_json := answers,
                          edit_notes := jsTrim notes } =
         vs ++ [{ version := nextVersionNumber vs,
                  is_original := nextVersionNumber vs = 1,
                  answers_json := answers,
                  edited_by := some uid,
                  edit_notes := some (jsTrim notes) }]) ∧
    (∀ q, q ∈ missingRequired qs answers ↔
       q ∈ qs ∧ q.required = true ∧ answerBlank answers q.id = true) := by
  refine ⟨fun hne => ?_, fun he => ⟨?_, rfl⟩, fun q => ?_⟩
  · simp only [handleSave]
    rw [if_pos (List.length_pos.mpr hne)]
  · simp only [handleSave]
    rw [if_neg (by simp [he])]
  · simp [missingRequired, List.mem_filter, Bool.and_eq_true]

/-- Witness for c7_save_validation: both outcomes exercised on concrete
inputs. -/
theorem c7_save_validation_witness :
    handleSave editQs [] "u1" " notes " =
      .validationError
        ("Please answer all required questions: "
          ++ String.intercalate ", " ((missingRequired editQs []).map fun q => q.text)) ∧
    (handleSave editQs [("e1", "Good")] "u1" " notes " =
       .requestIssued { user_id := "u1", answers_json := [("e1", "Good")],
                        edit_notes := jsTrim " notes " } ∧
     createVersion [] { user_id := "u1", answers_json := [("e1", "Good")],
                        edit_notes := jsTrim " notes " } =
       [] ++ [{ version := nextVersionNumber [],
                is_original := nextVersionNumber [] = 1,
                answers_json := [("e1", "Good")],
                edited_by := some "u1",
                edit_notes := some (jsTrim " notes ") }]) :=
  ⟨(c7_save_validation editQs [] "u1" " notes " []).1 (by decide),
   (c7_save_validation editQs [("e1", "Good")] "u1" " notes " []).2.1 (by decide)⟩

/-- C4 counterexample: the claim that after the session reaches completed no
further revise request is ever issued — every edit control unrendered or
disabled — is false.  Every normal completion happens from
ConversationalReview, and while the complete request is in flight (the engine
sealing the session) the review page still renders enabled Edit Answer and
Save Changes buttons (ConversationalReview.tsx lines 455 and 326 carry no
disabled attribute); from the freshly loaded review state, clicking complete
and then edit and save issues a revise request for the sealed session, with
the complete request still in flight. -/
theorem c4_counterexample :
    (revRun revLoaded [.completeClick]).inFlight = [.completeReq] ∧
    (revRun revLoaded
        [.completeClick, .startEdit 0, .typeEdit "Post-seal edit",
         .saveEditClick]).inFlight = [.completeReq, .reviseReq] ∧
    MutKind.reviseReq ∈ (revRun revLoaded
        [.completeClick, .startEdit 0, .typeEdit "Post-seal edit",
         .saveEditClick]).inFlight := by
  decide

/-- C4 (amended): once the chat components observe completion, no further
submit_answer or revise can be issued from them: the chat renders no input
form once completed, every subsequent event leaves both chat components
unchanged and emits no request, and the supporting invariants (nothing in
flight when completed) are preserved by every step; at the engine (modelled
from the spec) any mutation on a completed session fails with
AlreadyCompleted and leaves it unchanged — the only backstop against the
revise that ConversationalReview can still issue while its complete request
is in flight (see the counterexample). -/
theorem c4_completed_terminal (c : ChatSys) (tr : List ChatEvent)
    (rc : RCState) (rtr : List RCEvent) (es : EngineSession) (idx : Nat)
    (ans key na : String)
    (hc : c.st.status = "completed") (hf : c.inFlight = 0)
    (hrc : rc.isComplete = true) (hrs : rc.isSubmitting = false)
    (hes : es.state = "completed") :
    renderAnswerForm c.st = false ∧
    chatRun c tr = (c, []) ∧
    (∀ (c0 : ChatSys) (tr0 : List ChatEvent),
       ChatInv c0 → ChatInv (chatRun c0 tr0).fst) ∧
    rcRun rc rtr = (rc, []) ∧
    (∀ (rc0 : RCState) (e : RCEvent),
       (rc0.isComplete = true → rc0.isSubmitting = false) →
       ((rcStep rc0 e).fst.isComplete = true →
          (rcStep rc0 e).fst.isSubmitting = false)) ∧
    submitAnswerM es idx ans = (es, .alreadyCompleted) ∧
    engineRevise es key na = (es, none) :=
  ⟨renderAnswerForm_completed hc, chatRun_completed c tr hc hf,
   fun c0 tr0 h => chatRun_inv c0 tr0 h,
   rcRun_completed rc rtr hrc hrs, fun rc0 e h => rcStep_inv rc0 e h,
   submitAnswerM_completed es idx ans hes, engineRevise_completed es key na hes⟩

/-- Witness for c4_completed_terminal at concrete inputs. -/
theorem c4_completed_terminal_witness :
    renderAnswerForm chatDone = false ∧
    chatRun ⟨chatDone, 0⟩ [.sendClick, .typeAnswer "x", .errResponse "boom"]
      = (⟨chatDone, 0⟩, []) ∧
    (∀ (c0 : ChatSys) (tr0 : List ChatEvent),
       ChatInv c0 → ChatInv (chatRun c0 tr0).fst) ∧
    rcRun rcDone [.sendClick, .typeInput "x", .draftOkNext "q2"] = (rcDone, []) ∧
    (∀ (rc0 : RCState) (e : RCEvent),
       (rc0.isComplete = true → rc0.isSubmitting = false) →
       ((rcStep rc0 e).fst.isComplete = true →
          (rcStep rc0 e).fst.isSubmitting = false)) ∧
    submitAnswerM engineDone 0 "late answer" = (engineDone, .alreadyCompleted) ∧
    engineRevise engineDone "q1" "late edit" = (engineDone, none) :=
  c4_completed_terminal ⟨chatDone, 0⟩ [.sendClick, .typeAnswer "x", .errResponse "boom"]
    rcDone [.sendClick, .typeInput "x", .draftOkNext "q2"] engineDone 0
    "late answer" "q1" "late edit"
    (by decide) (by decide) (by decide) (by decide) (by decide)

/-- C8 counterexample: from a freshly loaded review state, clicking the
save-edit button twice before any response arrives puts two revise requests
in flight at once, so the claim that no two state-mutating requests are ever
in flight concurrently from the client is false. -/
theorem c8_counterexample :
    ¬ ∀ tr : List RevEvent, (revRun revLoaded tr).inFlight.length ≤ 1 := by
  intro h
  exact absurd (h doubleSaveTrace) (by decide)

/-- C8 (amended): the guards the claim names do hold — at most one submit
request is ever in flight in ConversationalChat (ChatInv is preserved along
every trace), RefereeConversation drops a send while a submission is in
flight, and the complete button of ConversationalReview issues nothing while
submitting or while an edit is open — but revise requests carry no such
guard. -/
theorem c8_amended_guards :
    (∀ (c : ChatSys) (tr : List ChatEvent),
       ChatInv c → ChatInv (chatRun c tr).fst) ∧
    (∀ rc : RCState, rc.isSubmitting = true → rcStep rc .sendClick = (rc, [])) ∧
    (∀ rv : RevState, rv.submitting = true ∨ rv.editingId.isSome = true →
       revStep rv .completeClick = rv) := by
  refine ⟨fun c tr h => chatRun_inv c tr h, fun rc h => ?_, fun rv h => ?_⟩
  · simp [rcStep, rcSendGuard, h]
  · rcases h with h | h
    · simp [revStep, h]
    · rcases heid : rv.editingId with - | aid
      · rw [heid] at h
        exact absurd h (by simp)
      · simp [revStep, heid]

/-- Witness for c8_amended_guards at concrete inputs. -/
theorem c8_amended_guards_witness :
    ChatInv (chatRun ⟨chatDone, 0⟩ [.sendClick]).fst ∧
    rcStep rcMid .sendClick = (rcMid, []) ∧
    revStep { revLoaded with submitting := true } .completeClick
      = { revLoaded with submitting := true } :=
  ⟨c8_amended_guards.1 ⟨chatDone, 0⟩ [.sendClick]
     ⟨by decide, fun h => absurd h (by decide), fun _ => rfl⟩,
   c8_amended_guards.2.1 rcMid (by decide),
   c8_amended_guards.2.2 { revLoaded with submitting := true } (Or.inl (by decide))⟩

/-- C1 counterexample: with the invariant holding (client counter 1, one of
two questions answered), a retried duplicate draft save is absorbed
idempotently by the engine — no second Version, reported as success — yet
RefereeConversation increments its local counter, which then no longer equals
the count of questions with a current Answer version. -/
theorem c1_counterexample :
    rcMid.progressCurrent = answeredCount engineOneAnswered ∧
    (submitAnswerM engineOneAnswered 0 "Great teammate").fst = engineOneAnswered ∧
    (submitAnswerM engineOneAnswered 0 "Great teammate").snd = .accepted (some qB) ∧
    ¬ ((rcStep rcMid (.draftOkNext "q2")).fst.progressCurrent =
         answeredCount (submitAnswerM engineOneAnswered 0 "Great teammate").fst) := by
  decide

/-- C1 (amended): ConversationalChat adopts the server-reported progress
after init and after every submit response, and in the engine model that
progress has answered equal to the count of questions with a current Answer
version and total equal to the template length; the template — hence
progress.total — never changes during a session, and RefereeConversation also
never changes its total; RefereeConversation's answered counter, however, is
only a local increment and is not that count (see the counterexample). -/
theorem c1_amended_progress :
    (∀ (s : ChatState) (d : InitResponse), (initStep s d).fst.progress = d.progress) ∧
    (∀ (s : ChatState) (d : AnswerData), (handleAnswerOk s d).progress = d.progress) ∧
    (∀ es : EngineSession, (engineProgress es).answered = answeredCount es ∧
       (engineProgress es).total = es.template.length) ∧
    (∀ (es : EngineSession) (idx : Nat) (ans : String),
       (submitAnswerM es idx ans).fst.template = es.template) ∧
    (∀ (rc : RCState) (e : RCEvent),
       (rcStep rc e).fst.progressTotal = rc.progressTotal) := by
  refine ⟨initStep_progress, handleAnswerOk_progress, fun es => ⟨rfl, rfl⟩,
          submitAnswerM_template, fun rc e => ?_⟩
  cases e <;> (simp only [rcStep]; split <;> rfl)

/-- C10: During init the client treats the server status in_review exactly
like ready_for_review: the resulting state and scheduled effects are
identical, the stored status is ready_for_review, the all-questions-answered
message is shown and the transition to the review step is scheduled. -/
theorem c10_in_review_alias (s : ChatState) (sid : String) (p : Progress)
    (q : Option Question) (cn pos : String) :
    initStep s { session_id := sid, status := "in_review", progress := p,
                 question := q, candidate_name := cn, position := pos } =
      initStep s { session_id := sid, status := "ready_for_review", progress := p,
                   question := q, candidate_name := cn, position := pos } ∧
    (initStep s { session_id := sid, status := "in_review", progress := p,
                  question := q, candidate_name := cn, position := pos }).fst.status
      = "ready_for_review" ∧
    (initStep s { session_id := sid, status := "in_review", progress := p,
                  question := q, candidate_name := cn, position := pos }).snd = true ∧
    (initStep s { session_id := sid, status := "in_review", progress := p,
                  question := q, candidate_name := cn, position := pos }).fst.messages
      = s.messages ++ [{ role := .assistant, content := readyText }] := by
  refine ⟨?_, ?_, ?_, ?_⟩ <;> simp [initStep, addMessage]

end RefCheck
